import Mathlib

/-!
Verification development for the service-integration and resilience layer of
the RAG platform repository: circuit breaker (`service-integration.py`),
retry wrappers (`error-handling.py`, the `backoff` decorator on
`call_service`), rate limiter and admission middleware (`security-config.py`).

Timestamps and delays (Python floats from `time.time()` and
`datetime.utcnow()`) are modelled as rationals; counters (Python ints that
only ever grow from 0) as naturals; Python exceptions as explicit error
values in `Except` / sum-like result types.
-/

/-! ## Circuit breaker (`service-integration.py`, class `CircuitBreaker`) -/

/-- The three breaker states; the source stores them as the strings
"closed", "open", "half-open".  `opened` stands for the source's "open". -/
inductive CBState where
  | closed
  | opened
  | halfOpen
deriving DecidableEq, Repr

/-- Mirror of the `CircuitBreaker` object's fields: `threshold`,
`reset_timeout`, `failures`, `last_failure_time`, `state`. -/
structure CircuitBreaker where
  threshold : Nat
  resetTimeout : ℚ
  failures : Nat
  lastFailureTime : ℚ
  state : CBState
deriving DecidableEq, Repr

/-- What a call through the breaker produced: the synthetic
"Circuit breaker is open" exception, the operation's result, or the
operation's re-raised exception. -/
inductive CallOutcome where
  | breakerOpen
  | success
  | failure
deriving DecidableEq, Repr

/-- Result of `CircuitBreaker.call`: the breaker afterwards, the outcome, and
whether the wrapped operation `func` was invoked at all. -/
structure CallResult where
  breaker : CircuitBreaker
  outcome : CallOutcome
  invoked : Bool
deriving DecidableEq, Repr

/-- The body of `CircuitBreaker.call` from the `try` onwards: the operation
is invoked (`ok` says whether it succeeds); on success a half-open breaker
closes and resets `failures`; on failure `failures` is incremented,
`last_failure_time` is set to `now`, and the breaker opens when
`failures >= threshold`. -/
def afterAttempt (cb : CircuitBreaker) (now : ℚ) (ok : Bool) : CallResult :=
  if ok then
    if cb.state = CBState.halfOpen then
      ⟨{ cb with state := CBState.closed, failures := 0 }, CallOutcome.success, true⟩
    else
      ⟨cb, CallOutcome.success, true⟩
  else
    let cb2 : CircuitBreaker :=
      { cb with failures := cb.failures + 1, lastFailureTime := now }
    if cb2.threshold ≤ cb2.failures then
      ⟨{ cb2 with state := CBState.opened }, CallOutcome.failure, true⟩
    else
      ⟨cb2, CallOutcome.failure, true⟩

/-- `CircuitBreaker.call`: while open, a call raises immediately unless the
reset timeout has elapsed since the last failure, in which case the breaker
moves to half-open and the operation is attempted. -/
def CircuitBreaker.call (cb : CircuitBreaker) (now : ℚ) (ok : Bool) : CallResult :=
  if cb.state = CBState.opened then
    if now - cb.lastFailureTime > cb.resetTimeout then
      afterAttempt { cb with state := CBState.halfOpen } now ok
    else
      ⟨cb, CallOutcome.breakerOpen, false⟩
  else
    afterAttempt cb now ok

/-- `CircuitBreaker.__init__`: failures 0, last failure time 0, closed. -/
def CircuitBreaker.init (threshold : Nat) (resetTimeout : ℚ) : CircuitBreaker :=
  ⟨threshold, resetTimeout, 0, 0, CBState.closed⟩

/-- Breaker states reachable from a freshly constructed breaker by any
sequence of calls. -/
inductive CBReachable : CircuitBreaker → Prop where
  | base (t : Nat) (r : ℚ) : CBReachable (CircuitBreaker.init t r)
  | step (cb : CircuitBreaker) (now : ℚ) (ok : Bool) :
      CBReachable cb → CBReachable ((cb.call now ok).breaker)

/-- The breaker invariant: away from `closed`, the failure count has reached
the threshold (this is what forces a half-open failure to reopen). -/
def CBInv (cb : CircuitBreaker) : Prop :=
  cb.state ≠ CBState.closed → cb.threshold ≤ cb.failures

/-! ## Retry wrapper (`error-handling.py`, `with_error_handling`)

The wrapped coroutine is modelled as `op : Nat → Except E A`: invocation
number `i` (0-based) either returns a value or raises an exception of the
(arbitrary) type `E`.  The registered error handlers only log and never
change control flow (their own exceptions are caught), so they are not
modelled.  `asyncio.sleep` calls are recorded in a list of waited delays. -/

/-- How the wrapper terminates: return the operation's value, re-raise the
last operation exception, or execute `raise last_error` with
`last_error = None` (a `TypeError` in Python). -/
inductive RetryResult (E A : Type) where
  | ok (a : A)
  | err (e : E)
  | raiseNone

/-- Observable trace of one run of the wrapper: how many times the wrapped
operation was invoked, the backoff delays slept (in order), and the result. -/
structure RetryTrace (E A : Type) where
  invocations : Nat
  waits : List ℚ
  result : RetryResult E A

/-- The `while retries < max_retries` loop of `with_error_handling`.
`i` is the current value of `retries` (also the 0-based invocation index),
`n` the number of loop iterations still permitted (`max_retries - retries`),
`last` the current `last_error`.  After a failure the loop sleeps
`retry_delay * 2 ** (retries - 1)` only if `retries < max_retries` still
holds, i.e. if further iterations remain. -/
def retryAux {E A : Type} (op : Nat → Except E A) (delay : ℚ) :
    Nat → Nat → Option E → RetryTrace E A
  | _, 0, last =>
    ⟨0, [], match last with
      | some e => RetryResult.err e
      | none => RetryResult.raiseNone⟩
  | i, n + 1, _ =>
    match op i with
    | Except.ok a => ⟨1, [], RetryResult.ok a⟩
    | Except.error e =>
      let rest := retryAux op delay (i + 1) n (some e)
      ⟨rest.invocations + 1,
        (if 0 < n then [delay * 2 ^ i] else []) ++ rest.waits,
        rest.result⟩

/-- `with_error_handling(max_retries, retry_delay)` applied to `op`.
`max_retries` is a Python int, so it may be non-positive; the loop then
never runs and `raise last_error` re-raises `None`. -/
def with_error_handling {E A : Type} (maxRetries : Int) (retryDelay : ℚ)
    (op : Nat → Except E A) : RetryTrace E A :=
  retryAux op retryDelay 0 maxRetries.toNat none

/-! ## Gateway retry (`service-integration.py`, `call_service`)

`call_service` is decorated with
`backoff.on_exception(backoff.expo, (aiohttp.ClientError, asyncio.TimeoutError), max_tries=3)`:
the decorator re-invokes the function only when it raises one of the two
listed exception types and fewer than `max_tries` invocations have been
made; any other exception propagates immediately. -/

/-- Exceptions as seen by the `backoff` decorator: the two retryable types
named in the decorator, and every other Python exception (carrying its type
name and message). -/
inductive PyExc where
  | clientError (msg : String)
  | timeoutError
  | other (name msg : String)
deriving DecidableEq, Repr

/-- Whether the decorator's exception tuple matches: `aiohttp.ClientError`
and `asyncio.TimeoutError` only. -/
def PyExc.retryable : PyExc → Bool
  | PyExc.clientError _ => true
  | PyExc.timeoutError => true
  | PyExc.other _ _ => false

/-- Trace of a `backoff`-decorated call: number of invocations of the
decorated function and the final outcome. -/
structure BackoffTrace (A : Type) where
  invocations : Nat
  result : Except PyExc A

/-- One run of the `backoff.on_exception` decorator: `i` is the 0-based
invocation index, `n + 1` the number of invocations still allowed.  A
retryable exception with invocations remaining triggers a re-invocation;
anything else is raised.  The `n = 0` base case is unreachable when the
configured `max_tries` is positive; its value is an arbitrary placeholder. -/
def backoffAux {A : Type} (op : Nat → Except PyExc A) : Nat → Nat → BackoffTrace A
  | _, 0 => ⟨0, Except.error PyExc.timeoutError⟩
  | i, n + 1 =>
    match op i with
    | Except.ok a => ⟨1, Except.ok a⟩
    | Except.error e =>
      if e.retryable = true then
        if 0 < n then
          let rest := backoffAux op (i + 1) n
          ⟨rest.invocations + 1, rest.result⟩
        else ⟨1, Except.error e⟩
      else ⟨1, Except.error e⟩

/-- The retry behaviour `call_service` gets from its decorator:
`max_tries = 3`. -/
def call_service_retry {A : Type} (op : Nat → Except PyExc A) : BackoffTrace A :=
  backoffAux op 0 3

/-- Whether an invocation returned normally (`Except.ok`) rather than
raising. -/
def exceptOk {E A : Type} : Except E A → Bool
  | Except.ok _ => true
  | Except.error _ => false

theorem afterAttempt_inv (cb : CircuitBreaker) (now : ℚ) (ok : Bool)
    (h : CBInv cb) : CBInv (afterAttempt cb now ok).breaker := by
  unfold afterAttempt CBInv at *
  by_cases hok : ok = true
  · by_cases hh : cb.state = CBState.halfOpen
    · simp [hok, hh]
    · simpa [hok, hh] using h
  · by_cases hth : cb.threshold ≤ cb.failures + 1
    · simp [hok, hth]
    · simp only [hok, hth]
      simp only [Bool.false_eq_true, if_false, if_neg hth]
      intro hne
      exact absurd (Nat.le_succ_of_le (h hne)) hth

theorem call_inv (cb : CircuitBreaker) (now : ℚ) (ok : Bool)
    (h : CBInv cb) : CBInv ((cb.call now ok).breaker) := by
  unfold CircuitBreaker.call
  split
  · split
    · refine afterAttempt_inv _ now ok ?_
      intro _
      exact h (by simp [‹cb.state = CBState.opened›])
    · exact h
  · exact afterAttempt_inv _ now ok h

theorem reachable_inv (cb : CircuitBreaker) (h : CBReachable cb) : CBInv cb := by
  induction h with
  | base t r => intro hne; simp [CircuitBreaker.init] at hne
  | step cb now ok _ ih => exact call_inv cb now ok ih

/-- C1: a call on an open breaker before the reset timeout has elapsed since
the last recorded failure raises the breaker-open error immediately, the
wrapped operation is never invoked, and the breaker is unchanged. -/
theorem open_call_rejected_without_invoking (cb : CircuitBreaker) (now : ℚ) (ok : Bool)
    (hs : cb.state = CBState.opened)
    (ht : now - cb.lastFailureTime < cb.resetTimeout) :
    cb.call now ok = ⟨cb, CallOutcome.breakerOpen, false⟩ := by
  unfold CircuitBreaker.call
  rw [if_pos hs, if_neg (not_lt_of_gt ht)]

theorem open_call_rejected_without_invoking_witness :
    (CircuitBreaker.call ⟨3, 60, 3, 5, CBState.opened⟩ 10 true) =
      ⟨⟨3, 60, 3, 5, CBState.opened⟩, CallOutcome.breakerOpen, false⟩ :=
  open_call_rejected_without_invoking ⟨3, 60, 3, 5, CBState.opened⟩ 10 true rfl (by norm_num)

/-- C2 counterexample: a closed breaker with one recorded failure keeps its
failure count after a successful call — the count is not reset to 0 as the
claim states.  (Breaker: threshold 5, reset timeout 60, failures 1, last
failure at time 0, state closed; successful call at time 10.) -/
theorem closed_success_does_not_reset_failures :
    (CircuitBreaker.call ⟨5, 60, 1, 0, CBState.closed⟩ 10 true).outcome =
      CallOutcome.success ∧
    (CircuitBreaker.call ⟨5, 60, 1, 0, CBState.closed⟩ 10 true).breaker.failures ≠ 0 := by
  constructor
  · rfl
  · simp [CircuitBreaker.call, afterAttempt]

/-- C2 amended: in the Closed state, a successful call leaves the breaker
entirely unchanged (in particular the failure count is not reset to 0; it is
reset only by a successful call in the HalfOpen state), so failures
accumulate toward the threshold even when interleaved with successes. -/
theorem closed_success_leaves_breaker_unchanged (cb : CircuitBreaker) (now : ℚ)
    (hs : cb.state = CBState.closed) :
    cb.call now true = ⟨cb, CallOutcome.success, true⟩ := by
  unfold CircuitBreaker.call afterAttempt
  rw [if_neg (by simp [hs]), if_pos rfl, if_neg (by simp [hs])]

theorem closed_success_leaves_breaker_unchanged_witness :
    (CircuitBreaker.call ⟨5, 60, 3, 2, CBState.closed⟩ 10 true) =
      ⟨⟨5, 60, 3, 2, CBState.closed⟩, CallOutcome.success, true⟩ :=
  closed_success_leaves_breaker_unchanged ⟨5, 60, 3, 2, CBState.closed⟩ 10 rfl

/-- C3: on an open breaker, a call more than the reset timeout after the last
failure goes half-open and executes the operation: success closes the breaker
and resets the failure count, failure reopens it and stamps the failure time
(for any breaker satisfying the reachability invariant `CBInv`, i.e. the
failure count reached the threshold when the breaker opened); the same two
outcomes govern calls made in the HalfOpen state itself. -/
theorem open_timeout_probe_halfopen_transitions (cb : CircuitBreaker) (now : ℚ) :
    (cb.state = CBState.opened → now - cb.lastFailureTime > cb.resetTimeout →
      (cb.call now true).invoked = true ∧
      cb.call now true =
        ⟨{ cb with state := CBState.closed, failures := 0 }, CallOutcome.success, true⟩ ∧
      (CBInv cb →
        cb.call now false =
          ⟨⟨cb.threshold, cb.resetTimeout, cb.failures + 1, now, CBState.opened⟩,
            CallOutcome.failure, true⟩)) ∧
    (cb.state = CBState.halfOpen →
      cb.call now true =
        ⟨{ cb with state := CBState.closed, failures := 0 }, CallOutcome.success, true⟩ ∧
      (CBInv cb →
        cb.call now false =
          ⟨⟨cb.threshold, cb.resetTimeout, cb.failures + 1, now, CBState.opened⟩,
            CallOutcome.failure, true⟩)) := by
  constructor
  · intro hs ht
    refine ⟨?_, ?_, ?_⟩
    · unfold CircuitBreaker.call afterAttempt
      rw [if_pos hs, if_pos ht]
      simp
    · unfold CircuitBreaker.call afterAttempt
      rw [if_pos hs, if_pos ht]
      simp
    · intro hinv
      have hth : cb.threshold ≤ cb.failures := hinv (by simp [hs])
      unfold CircuitBreaker.call afterAttempt
      rw [if_pos hs, if_pos ht]
      simp [Nat.le_succ_of_le hth]
  · intro hs
    constructor
    · unfold CircuitBreaker.call afterAttempt
      rw [if_neg (by simp [hs]), if_pos rfl, if_pos hs]
    · intro hinv
      have hth : cb.threshold ≤ cb.failures := hinv (by simp [hs])
      unfold CircuitBreaker.call afterAttempt
      rw [if_neg (by simp [hs])]
      simp [Nat.le_succ_of_le hth]

theorem open_timeout_probe_halfopen_transitions_witness :
    (CircuitBreaker.call ⟨2, 60, 2, 0, CBState.opened⟩ 61 true) =
      ⟨⟨2, 60, 0, 0, CBState.closed⟩, CallOutcome.success, true⟩ ∧
    (CircuitBreaker.call ⟨2, 60, 2, 0, CBState.opened⟩ 61 false) =
      ⟨⟨2, 60, 3, 61, CBState.opened⟩, CallOutcome.failure, true⟩ := by
  refine ⟨?_, ?_⟩
  · exact ((open_timeout_probe_halfopen_transitions ⟨2, 60, 2, 0, CBState.opened⟩ 61).1 rfl
      (by norm_num)).2.1
  · exact ((open_timeout_probe_halfopen_transitions ⟨2, 60, 2, 0, CBState.opened⟩ 61).1 rfl
      (by norm_num)).2.2 (by intro h; norm_num)

/-! ## Security layer (`security-config.py`)

`SecurityConfig.RATE_LIMIT_MINUTE = 100`, `SecurityConfig.RATE_LIMIT_HOUR =
1000`.  The `_rate_limiters` dict is modelled as an association list keyed by
username; `datetime.utcnow()` timestamps as rationals (window ages in
seconds via `total_seconds()`). -/

def RATE_LIMIT_MINUTE : Nat := 100

def RATE_LIMIT_HOUR : Nat := 1000

/-- One fixed window: `{"count": ..., "reset": ...}`. -/
structure Window where
  count : Nat
  reset : ℚ
deriving DecidableEq, Repr

/-- A principal's entry in `_rate_limiters`: minute and hour windows. -/
structure Limiter where
  minute : Window
  hour : Window
deriving DecidableEq, Repr

/-- `Role` enum: admin, user, service. -/
inductive Role where
  | admin
  | user
  | service
deriving DecidableEq, Repr

/-- `UserData` dataclass: username, role, permissions, optional per-user
rate-limit override (`rate_limit`, defaulting to `None`, never read by any
code in the module). -/
structure UserData where
  username : String
  role : Role
  permissions : List String
  rate_limit : Option Nat
deriving DecidableEq, Repr

/-- Write a principal's limiter entry (dict insertion / in-place mutation
of `_rate_limiters[username]`). -/
def setLimiter : List (String × Limiter) → String → Limiter → List (String × Limiter)
  | [], n, l => [(n, l)]
  | (k, v) :: rest, n, l =>
    if k = n then (n, l) :: rest else (k, v) :: setLimiter rest n l

/-- `SecurityManager.rate_limit_check(user_data)`: create the principal's
entry if absent (both windows starting now with count 0), reset any window
older than its length, deny if either count has reached its limit,
otherwise increment both counts and allow.  Returns the updated
`_rate_limiters` state and the boolean verdict. -/
def rate_limit_check (st : List (String × Limiter)) (u : UserData) (now : ℚ) :
    List (String × Limiter) × Bool :=
  let l0 : Limiter := (st.lookup u.username).getD ⟨⟨0, now⟩, ⟨0, now⟩⟩
  let l1 : Limiter := if now - l0.minute.reset > 60 then ⟨⟨0, now⟩, l0.hour⟩ else l0
  let l2 : Limiter := if now - l1.hour.reset > 3600 then ⟨l1.minute, ⟨0, now⟩⟩ else l1
  if RATE_LIMIT_MINUTE ≤ l2.minute.count ∨ RATE_LIMIT_HOUR ≤ l2.hour.count then
    (setLimiter st u.username l2, false)
  else
    (setLimiter st u.username
      ⟨⟨l2.minute.count + 1, l2.minute.reset⟩, ⟨l2.hour.count + 1, l2.hour.reset⟩⟩, true)

/-- The count a window holds after the staleness check: reset to 0 when its
age exceeds the window length. -/
def effCount (w : Window) (len now : ℚ) : Nat :=
  if now - w.reset > len then 0 else w.count

/-- The limiter value `rate_limit_check` checks against the limits: the
principal's entry (or a fresh one) with stale windows reset. -/
def effLimiter (st : List (String × Limiter)) (name : String) (now : ℚ) : Limiter :=
  let l0 : Limiter := (st.lookup name).getD ⟨⟨0, now⟩, ⟨0, now⟩⟩
  ⟨⟨effCount l0.minute 60 now, if now - l0.minute.reset > 60 then now else l0.minute.reset⟩,
   ⟨effCount l0.hour 3600 now, if now - l0.hour.reset > 3600 then now else l0.hour.reset⟩⟩

/-- Outcome of one pass through `SecurityMiddleware.__call__`: the request
is served (with the `X-Rate-Limit-Remaining` header value), rejected with
HTTP 429, rejected because token verification failed, or passed through
unauthenticated (no/empty Authorization header). -/
inductive MwOutcome where
  | ok (remaining : Int)
  | rateLimited
  | authFailed
  | passthrough
deriving DecidableEq, Repr

/-- `SecurityMiddleware.__call__`: extract the bearer token; if present,
verify it (`verify` abstracts `verify_token` on a string token), run
`rate_limit_check`, raise 429 when denied, otherwise execute the handler
and report `RATE_LIMIT_MINUTE - minute count` as remaining quota.  There is
no role check anywhere on this path. -/
def middleware_call (st : List (String × Limiter)) (token : Option String)
    (verify : String → Except Unit UserData) (now : ℚ) :
    List (String × Limiter) × MwOutcome :=
  match token with
  | none => (st, MwOutcome.passthrough)
  | some t =>
    match verify t with
    | Except.error _ => (st, MwOutcome.authFailed)
    | Except.ok u =>
      let r := rate_limit_check st u now
      if r.2 then
        (r.1, MwOutcome.ok ((RATE_LIMIT_MINUTE : Int) -
          ((((r.1.lookup u.username).getD ⟨⟨0, now⟩, ⟨0, now⟩⟩).minute.count : Int))))
      else
        (r.1, MwOutcome.rateLimited)

/-- Failure modes of token verification and the permission check.
`typeError` is the Python `TypeError` raised when an unhashable value (a
list) is tested for membership in the `_token_blacklist` set; only
`JWTError` is caught in `verify_token`, so it propagates. -/
inductive AuthFail where
  | typeError
  | revoked
  | invalidToken
  | forbidden
deriving DecidableEq, Repr

/-- The value passed as `verify_token`'s `token` parameter.  The annotation
says `str`, but `require_permissions` actually passes the principal's
permission list. -/
inductive TokenArg where
  | str (s : String)
  | permList (ps : List String)
deriving DecidableEq, Repr

/-- `SecurityManager.verify_token`: blacklist test first (hashing a list
raises `TypeError`), then `jwt.decode` plus payload extraction, abstracted
as `decode`; `none` covers both a `JWTError` and a missing `sub` claim. -/
def verify_token (blacklist : List String) (decode : String → Option UserData) :
    TokenArg → Except AuthFail UserData
  | TokenArg.permList _ => Except.error AuthFail.typeError
  | TokenArg.str s =>
    if s ∈ blacklist then Except.error AuthFail.revoked
    else
      match decode s with
      | some u => Except.ok u
      | none => Except.error AuthFail.invalidToken

/-- `SecurityManager.check_permission(token, required_permissions)`:
verify the token, grant admins everything, otherwise require every declared
permission to be held. -/
def check_permission (blacklist : List String) (decode : String → Option UserData)
    (token : TokenArg) (required : List String) : Except AuthFail Bool :=
  match verify_token blacklist decode token with
  | Except.error e => Except.error e
  | Except.ok u =>
    if u.role = Role.admin then Except.ok true
    else Except.ok (required.all (fun p => u.permissions.contains p))

/-- `require_permissions(permissions)`: the generated dependency calls
`check_permission(user.permissions, permissions)` — the principal's
permission list is passed where `check_permission` expects the token
string — and raises HTTP 403 when the check returns false. -/
def require_permissions (blacklist : List String) (decode : String → Option UserData)
    (user : UserData) (required : List String) : Except AuthFail Bool :=
  match check_permission blacklist decode (TokenArg.permList user.permissions) required with
  | Except.error e => Except.error e
  | Except.ok true => Except.ok true
  | Except.ok false => Except.error AuthFail.forbidden

theorem exceptOk_false_iff {E A : Type} (x : Except E A) :
    exceptOk x = false ↔ ∃ e, x = Except.error e := by
  cases x <;> simp [exceptOk]

theorem retryAux_ok {E A : Type} (op : Nat → Except E A) (delay : ℚ) :
    ∀ (k i n : Nat) (last : Option E) (a : A), k < n →
      (∀ j, j < k → exceptOk (op (i + j)) = false) → op (i + k) = Except.ok a →
      (retryAux op delay i n last).invocations = k + 1 ∧
      (retryAux op delay i n last).result = RetryResult.ok a := by
  intro k
  induction k with
  | zero =>
    intro i n last a hk hfail hok
    obtain ⟨nn, rfl⟩ : ∃ nn, n = nn + 1 := ⟨n - 1, by omega⟩
    have hop : op i = Except.ok a := by simpa using hok
    simp [retryAux, hop]
  | succ k ih =>
    intro i n last a hk hfail hok
    obtain ⟨nn, rfl⟩ : ∃ nn, n = nn + 1 := ⟨n - 1, by omega⟩
    have h0 : exceptOk (op i) = false := by
      simpa using hfail 0 (Nat.succ_pos k)
    obtain ⟨e, he⟩ := (exceptOk_false_iff (op i)).1 h0
    have hfailsh : ∀ j, j < k → exceptOk (op (i + 1 + j)) = false := by
      intro j hj
      have heq : i + 1 + j = i + (j + 1) := by omega
      rw [heq]
      exact hfail (j + 1) (by omega)
    have hoksh : op (i + 1 + k) = Except.ok a := by
      have heq : i + 1 + k = i + (k + 1) := by omega
      rw [heq]; exact hok
    have hrec := ih (i + 1) nn (some e) a (by omega) hfailsh hoksh
    simp only [retryAux, he]
    exact ⟨by simp [hrec.1], by simp [hrec.2]⟩

theorem retryAux_allFail {E A : Type} (op : Nat → Except E A) (delay : ℚ) :
    ∀ (n i : Nat) (last : Option E), 1 ≤ n →
      (∀ j, j < n → exceptOk (op (i + j)) = false) →
      (retryAux op delay i n last).invocations = n ∧
      (retryAux op delay i n last).waits =
        (List.range (n - 1)).map (fun k => delay * 2 ^ (i + k)) ∧
      ∀ e, op (i + (n - 1)) = Except.error e →
        (retryAux op delay i n last).result = RetryResult.err e := by
  intro n
  induction n with
  | zero => intro i last h; omega
  | succ n ih =>
    intro i last h1 hfail
    have h0 : exceptOk (op i) = false := by simpa using hfail 0 (Nat.succ_pos n)
    obtain ⟨e0, he0⟩ := (exceptOk_false_iff (op i)).1 h0
    by_cases hn : n = 0
    · subst hn
      refine ⟨by simp [retryAux, he0], by simp [retryAux, he0], ?_⟩
      intro e he
      have he2 : op i = Except.error e := by simpa using he
      rw [he0] at he2
      injection he2 with h
      subst h
      simp [retryAux, he0]
    · have hn1 : 1 ≤ n := by omega
      have hfailsh : ∀ j, j < n → exceptOk (op (i + 1 + j)) = false := by
        intro j hj
        have heq : i + 1 + j = i + (j + 1) := by omega
        rw [heq]
        exact hfail (j + 1) (by omega)
      have hrec := ih (i + 1) (some e0) hn1 hfailsh
      simp only [retryAux, he0]
      refine ⟨by simp [hrec.1], ?_, ?_⟩
      · rw [if_pos (by omega : 0 < n)]
        have hw := hrec.2.1
        simp only [hw]
        obtain ⟨m, rfl⟩ : ∃ m, n = m + 1 := ⟨n - 1, by omega⟩
        simp only [Nat.add_sub_cancel]
        rw [List.range_succ_eq_map]
        simp only [Nat.add_one_sub_one, List.map_cons, List.map_map, List.singleton_append,
          List.cons.injEq]
        constructor
        · simp
        · refine List.map_congr_left ?_
          intro j hj
          simp only [Function.comp_apply]
          have heq : i + 1 + j = i + (j + 1) := by omega
          rw [heq]
      · intro e he
        have heq : i + 1 + (n - 1) = i + (n + 1 - 1) := by omega
        refine (hrec.2.2 e ?_)
        rw [heq]; exact he

/-- C4: for `max_retries >= 1`, an operation that fails on its first `N - 1`
invocations and succeeds on the `N`-th (`N <= max_retries`) makes the wrapper
return the success result after exactly `N` invocations; an operation that
fails on every invocation is invoked exactly `max_retries` times, the
wrapper sleeps `retry_delay * 2 ^ (k - 1)` after the `k`-th failure for each
`k < max_retries`, re-raises the last failure, and (for non-negative delay)
the total wait is at least `retry_delay * (2 ^ 0 + ... + 2 ^ (max_retries - 2))`. -/
theorem retry_attempts_and_backoff {E A : Type} (m : Nat) (hm : 1 ≤ m) (delay : ℚ)
    (op : Nat → Except E A) :
    (∀ (N : Nat) (a : A), 1 ≤ N → N ≤ m →
      (∀ i, i + 1 < N → exceptOk (op i) = false) → op (N - 1) = Except.ok a →
      (with_error_handling (m : Int) delay op).invocations = N ∧
      (with_error_handling (m : Int) delay op).result = RetryResult.ok a) ∧
    ((∀ i, i < m → exceptOk (op i) = false) →
      (with_error_handling (m : Int) delay op).invocations = m ∧
      (with_error_handling (m : Int) delay op).waits =
        (List.range (m - 1)).map (fun k => delay * 2 ^ k) ∧
      (∀ e, op (m - 1) = Except.error e →
        (with_error_handling (m : Int) delay op).result = RetryResult.err e) ∧
      (0 ≤ delay →
        delay * ((List.range (m - 1)).map (fun k => (2 : ℚ) ^ k)).sum ≤
          (with_error_handling (m : Int) delay op).waits.sum)) := by
  have htn : ((m : Int)).toNat = m := by simp
  constructor
  · intro N a hN hNm hfail hok
    have h := retryAux_ok op delay (N - 1) 0 m none a (by omega)
      (fun j hj => by simpa using hfail j (by omega)) (by simpa using hok)
    unfold with_error_handling
    rw [htn]
    exact ⟨by rw [h.1]; omega, h.2⟩
  · intro hfail
    have hall := retryAux_allFail op delay m 0 none hm
      (fun j hj => by simpa using hfail j hj)
    unfold with_error_handling
    rw [htn]
    refine ⟨hall.1, ?_, ?_, ?_⟩
    · rw [hall.2.1]; simp
    · intro e he
      exact hall.2.2 e (by simpa using he)
    · intro hd
      rw [hall.2.1]
      rw [← List.sum_map_mul_left]
      simp

theorem retry_attempts_and_backoff_witness :
    (with_error_handling (3 : Int) 1
      (fun i => if i = 0 then Except.error "boom" else Except.ok 7)).invocations = 2 ∧
    (with_error_handling (3 : Int) 1
      (fun i => if i = 0 then Except.error "boom" else Except.ok 7)).result =
        RetryResult.ok 7 ∧
    (with_error_handling (3 : Int) 1
      (fun _ => (Except.error "boom" : Except String Nat))).invocations = 3 ∧
    (with_error_handling (3 : Int) 1
      (fun _ => (Except.error "boom" : Except String Nat))).result =
        RetryResult.err "boom" := by
  have h1 := (retry_attempts_and_backoff 3 (by norm_num) 1
      (fun i => if i = 0 then Except.error "boom" else Except.ok 7)).1 2 7
      (by norm_num) (by norm_num)
      (fun i hi => by
        have hi0 : i = 0 := by omega
        subst hi0
        simp [exceptOk])
      (by simp)
  have h2 := (retry_attempts_and_backoff 3 (by norm_num) 1
      (fun _ => (Except.error "boom" : Except String Nat))).2
      (fun i _ => by simp [exceptOk])
  exact ⟨h1.1, h1.2, h2.1, h2.2.2.1 "boom" (by simp)⟩

/-- C10: with a non-positive `max_retries` the retry loop never runs, the
wrapped operation is never invoked, no backoff is slept, and the wrapper
executes `raise last_error` with `last_error = None` (a `TypeError` in
Python, modelled as `raiseNone`) instead of returning a result or an
operation failure. -/
theorem nonpositive_max_retries_raises_none {E A : Type} (m : Int) (hm : m ≤ 0)
    (delay : ℚ) (op : Nat → Except E A) :
    (with_error_handling m delay op).invocations = 0 ∧
    (with_error_handling m delay op).waits = [] ∧
    (with_error_handling m delay op).result = RetryResult.raiseNone := by
  have h0 : m.toNat = 0 := Int.toNat_of_nonpos hm
  unfold with_error_handling
  rw [h0]
  exact ⟨rfl, rfl, rfl⟩

theorem nonpositive_max_retries_raises_none_witness :
    (with_error_handling (0 : Int) 1
      (fun _ => (Except.ok 5 : Except String Nat))).invocations = 0 ∧
    (with_error_handling (0 : Int) 1
      (fun _ => (Except.ok 5 : Except String Nat))).waits = [] ∧
    (with_error_handling (0 : Int) 1
      (fun _ => (Except.ok 5 : Except String Nat))).result = RetryResult.raiseNone :=
  nonpositive_max_retries_raises_none 0 (by norm_num) 1 _

theorem retryAux_pattern {E1 A1 E2 A2 : Type} (op1 : Nat → Except E1 A1)
    (op2 : Nat → Except E2 A2) (delay : ℚ)
    (hpat : ∀ i, exceptOk (op1 i) = exceptOk (op2 i)) :
    ∀ (n i : Nat) (l1 : Option E1) (l2 : Option E2),
      (retryAux op1 delay i n l1).invocations = (retryAux op2 delay i n l2).invocations ∧
      (retryAux op1 delay i n l1).waits = (retryAux op2 delay i n l2).waits := by
  intro n
  induction n with
  | zero => intro i l1 l2; exact ⟨rfl, rfl⟩
  | succ n ih =>
    intro i l1 l2
    cases h1 : op1 i with
    | ok a =>
      cases h2 : op2 i with
      | ok b => simp [retryAux, h1, h2]
      | error f =>
        have hp := hpat i
        rw [h1, h2] at hp
        simp [exceptOk] at hp
    | error e =>
      cases h2 : op2 i with
      | ok b =>
        have hp := hpat i
        rw [h1, h2] at hp
        simp [exceptOk] at hp
      | error f =>
        have hrec := ih (i + 1) (some e) (some f)
        simp only [retryAux, h1, h2]
        exact ⟨by simp [hrec.1], by simp [hrec.2]⟩

/-- C5 counterexample: the gateway retry on `call_service`
(`backoff.on_exception` with the tuple `(aiohttp.ClientError,
asyncio.TimeoutError)` and `max_tries = 3`) does filter by error type: an
operation that always raises a `ValueError` is invoked exactly once, not the
configured 3 times — the exception propagates immediately. -/
theorem gateway_retry_filters_error_types :
    (call_service_retry (fun _ =>
      (Except.error (PyExc.other "ValueError" "bad") : Except PyExc Unit))).invocations
        = 1 ∧
    (call_service_retry (fun _ =>
      (Except.error (PyExc.other "ValueError" "bad") : Except PyExc Unit))).invocations
        ≠ 3 ∧
    (call_service_retry (fun _ =>
      (Except.error (PyExc.other "ValueError" "bad") : Except PyExc Unit))).result
        = Except.error (PyExc.other "ValueError" "bad") := by
  refine ⟨rfl, ?_, rfl⟩
  have h1 : (call_service_retry (fun _ =>
      (Except.error (PyExc.other "ValueError" "bad") : Except PyExc Unit))).invocations
        = 1 := rfl
  rw [h1]
  norm_num

/-- C5 amended: the generic wrapper `with_error_handling` does retry
uniformly — its invocation count and backoff sleeps depend only on the
success/failure pattern of the operation, not on which exceptions are
raised; but the gateway's own retry on `call_service` (the `backoff`
decorator) filters by error type: any exception other than
`aiohttp.ClientError` / `asyncio.TimeoutError` propagates after a single
invocation. -/
theorem retry_uniformity_and_gateway_filter {E1 A1 E2 A2 A : Type} :
    (∀ (m : Int) (delay : ℚ) (op1 : Nat → Except E1 A1) (op2 : Nat → Except E2 A2),
      (∀ i, exceptOk (op1 i) = exceptOk (op2 i)) →
      (with_error_handling m delay op1).invocations =
        (with_error_handling m delay op2).invocations ∧
      (with_error_handling m delay op1).waits =
        (with_error_handling m delay op2).waits) ∧
    (∀ (op : Nat → Except PyExc A) (e : PyExc), PyExc.retryable e = false →
      op 0 = Except.error e → call_service_retry op = ⟨1, Except.error e⟩) := by
  constructor
  · intro m delay op1 op2 hpat
    exact retryAux_pattern op1 op2 delay hpat m.toNat 0 none none
  · intro op e hre hop
    simp [call_service_retry, backoffAux, hop, hre]

theorem retry_uniformity_and_gateway_filter_witness :
    ((with_error_handling (2 : Int) 1
        (fun _ => (Except.error "x" : Except String Nat))).invocations =
      (with_error_handling (2 : Int) 1
        (fun _ => (Except.error 0 : Except Nat Bool))).invocations) ∧
    ((with_error_handling (2 : Int) 1
        (fun _ => (Except.error "x" : Except String Nat))).waits =
      (with_error_handling (2 : Int) 1
        (fun _ => (Except.error 0 : Except Nat Bool))).waits) ∧
    call_service_retry (fun _ =>
        (Except.error (PyExc.other "KeyError" "k") : Except PyExc Nat)) =
      ⟨1, Except.error (PyExc.other "KeyError" "k")⟩ := by
  have h1 := (@retry_uniformity_and_gateway_filter String Nat Nat Bool Nat).1 2 1
    (fun _ => (Except.error "x" : Except String Nat))
    (fun _ => (Except.error 0 : Except Nat Bool))
    (fun i => rfl)
  have h2 := (@retry_uniformity_and_gateway_filter String Nat Nat Bool Nat).2
    (fun _ => (Except.error (PyExc.other "KeyError" "k") : Except PyExc Nat))
    (PyExc.other "KeyError" "k") rfl rfl
  exact ⟨h1.1, h1.2, h2⟩

theorem lookup_setLimiter (st : List (String × Limiter)) (n : String) (l : Limiter) :
    (setLimiter st n l).lookup n = some l := by
  induction st with
  | nil => simp [setLimiter, List.lookup]
  | cons kv rest ih =>
    obtain ⟨k, v⟩ := kv
    by_cases hk : k = n
    · subst hk
      simp [setLimiter, List.lookup]
    · simp only [setLimiter, if_neg hk, List.lookup]
      have : (n == k) = false := by
        simp [Ne.symm hk]
      simp [this, ih]

theorem rate_limit_check_unfold (st : List (String × Limiter)) (u : UserData) (now : ℚ) :
    rate_limit_check st u now =
      if RATE_LIMIT_MINUTE ≤ (effLimiter st u.username now).minute.count ∨
          RATE_LIMIT_HOUR ≤ (effLimiter st u.username now).hour.count then
        (setLimiter st u.username (effLimiter st u.username now), false)
      else
        (setLimiter st u.username
          ⟨⟨(effLimiter st u.username now).minute.count + 1,
            (effLimiter st u.username now).minute.reset⟩,
           ⟨(effLimiter st u.username now).hour.count + 1,
            (effLimiter st u.username now).hour.reset⟩⟩, true) := by
  unfold rate_limit_check effLimiter effCount
  by_cases h1 : now - ((st.lookup u.username).getD ⟨⟨0, now⟩, ⟨0, now⟩⟩).minute.reset > 60 <;>
    by_cases h2 : now - ((st.lookup u.username).getD ⟨⟨0, now⟩, ⟨0, now⟩⟩).hour.reset > 3600 <;>
    simp [h1, h2]

/-- C6: for every principal and every rate-limit check, after stale windows
are reset to count 0 (minute window older than 60s, hour window older than
3600s): if either post-reset count is at or above its configured limit, the
check returns false and neither counter is incremented; otherwise both
counters are incremented by exactly 1 and the check returns true. -/
theorem rate_limit_check_consume_or_deny (st : List (String × Limiter))
    (u : UserData) (now : ℚ) :
    ((RATE_LIMIT_MINUTE ≤ (effLimiter st u.username now).minute.count ∨
      RATE_LIMIT_HOUR ≤ (effLimiter st u.username now).hour.count) →
      (rate_limit_check st u now).2 = false ∧
      (rate_limit_check st u now).1.lookup u.username =
        some (effLimiter st u.username now)) ∧
    ((effLimiter st u.username now).minute.count < RATE_LIMIT_MINUTE ∧
      (effLimiter st u.username now).hour.count < RATE_LIMIT_HOUR →
      (rate_limit_check st u now).2 = true ∧
      (rate_limit_check st u now).1.lookup u.username =
        some ⟨⟨(effLimiter st u.username now).minute.count + 1,
               (effLimiter st u.username now).minute.reset⟩,
              ⟨(effLimiter st u.username now).hour.count + 1,
               (effLimiter st u.username now).hour.reset⟩⟩) := by
  constructor
  · intro h
    rw [rate_limit_check_unfold, if_pos h]
    exact ⟨rfl, lookup_setLimiter st u.username _⟩
  · intro h
    rw [rate_limit_check_unfold, if_neg ?_]
    · exact ⟨rfl, lookup_setLimiter st u.username _⟩
    · rintro (hc | hc)
      · exact absurd hc (Nat.not_le.mpr h.1)
      · exact absurd hc (Nat.not_le.mpr h.2)

theorem rate_limit_check_consume_or_deny_witness :
    (rate_limit_check [] ⟨"alice", Role.user, [], none⟩ 0).2 = true ∧
    (rate_limit_check [] ⟨"alice", Role.user, [], none⟩ 0).1.lookup "alice" =
      some ⟨⟨1, 0⟩, ⟨1, 0⟩⟩ ∧
    (rate_limit_check [("bob", ⟨⟨100, 0⟩, ⟨0, 0⟩⟩)]
      ⟨"bob", Role.user, [], none⟩ 30).2 = false := by
  have ha := (rate_limit_check_consume_or_deny [] ⟨"alice", Role.user, [], none⟩ 0).2
    (by constructor <;>
      norm_num [effLimiter, effCount, List.lookup, RATE_LIMIT_MINUTE, RATE_LIMIT_HOUR])
  have hb := (rate_limit_check_consume_or_deny [("bob", ⟨⟨100, 0⟩, ⟨0, 0⟩⟩)]
      ⟨"bob", Role.user, [], none⟩ 30).1
    (Or.inl (by norm_num [effLimiter, effCount, List.lookup, RATE_LIMIT_MINUTE]))
  refine ⟨ha.1, ?_, hb.1⟩
  have h2 := ha.2
  norm_num [effLimiter, effCount, List.lookup] at h2
  exact h2

/-- C9: the rate-limit check's verdict and its state update are independent
of the principal's per-user `rate_limit` override field — replacing that
field by anything leaves `rate_limit_check` pointwise unchanged. -/
theorem rate_limit_ignores_override_field (st : List (String × Limiter))
    (u : UserData) (rl : Option Nat) (now : ℚ) :
    rate_limit_check st ⟨u.username, u.role, u.permissions, rl⟩ now =
      rate_limit_check st u now := rfl

/-- C7 counterexample: the middleware rate-limits Admins like anyone else.
An Admin principal whose minute counter is at the limit is rejected with 429
(`rateLimited`), and an Admin's allowed request consumes a counter (fresh
state: minute count becomes 1). -/
theorem admin_rate_limited_and_consumes :
    (middleware_call [("root", ⟨⟨100, 0⟩, ⟨100, 0⟩⟩)] (some "tok")
      (fun _ => Except.ok ⟨"root", Role.admin, [], none⟩) 30).2 =
        MwOutcome.rateLimited ∧
    (((middleware_call [] (some "tok")
      (fun _ => Except.ok ⟨"root", Role.admin, [], none⟩) 0).1.lookup "root").map
        (fun l => l.minute.count)) = some 1 := by
  constructor
  · norm_num [middleware_call, rate_limit_check, setLimiter, List.lookup,
      RATE_LIMIT_MINUTE, RATE_LIMIT_HOUR]
  · norm_num [middleware_call, rate_limit_check, setLimiter, List.lookup,
      RATE_LIMIT_MINUTE, RATE_LIMIT_HOUR]

/-- C7 amended: the admission middleware performs no role check at all —
its outcome and its rate-limiter state update depend on the authenticated
principal only through the username, so an Admin is rate limited exactly
like any other role (and can receive 429 and consume counters, as the
counterexample shows). -/
theorem middleware_role_blind (st : List (String × Limiter)) (tok : String)
    (u : UserData) (r : Role) (now : ℚ) :
    middleware_call st (some tok)
        (fun _ => Except.ok ⟨u.username, r, u.permissions, u.rate_limit⟩) now =
      middleware_call st (some tok) (fun _ => Except.ok u) now := rfl

/-- C8: evaluation of the route-permission check as the code actually ships.
`require_permissions` passes `user.permissions` (a list) as the token
argument of `check_permission`; `verify_token` then evaluates
`token in self._token_blacklist`, which raises `TypeError` on a list (only
`JWTError` is caught), so for every blacklist, every decoder, every
principal (Admin included) and every required-permission set the check
errors out instead of granting admin/superset access or denying with 403. -/
theorem require_permissions_always_type_error (blacklist : List String)
    (decode : String → Option UserData) (user : UserData) (required : List String) :
    require_permissions blacklist decode user required =
      Except.error AuthFail.typeError := rfl
